import Mathlib

/-!
Shallow embedding of the core of `killswitch.py` (python-killswitch):
backend probing, the per-device adapters, and the registry manipulation
performed by the discovery loops and the bus-notification handlers.

Conventions of the embedding:
* Bus replies and signal payloads are explicit inputs; observer callbacks
  are modelled by returning the list of devices delivered to them.
* Python booleans used as killswitch states are coerced the way Python
  coerces them in comparisons: `True` is `1`, `False` is `0`.
* A Python function that can raise is modelled by a result carrying a
  flag (or `Option`) recording that a raise escaped; the state components
  of the result reflect every mutation performed before the raise.
-/

namespace Killswitch

/-- Payload of URfkill's `RfkillChanged` / `RfkillAdded` signals, whose
positional layout `(index, type, state, soft, hard, name)` is the one the
source's `__killswitch_modified_cb` and `__killswitch_added_cb` receive.
The same layout is assumed for the tuples returned by `GetKillswitch` and
by the entries of `GetAll`, which the source indexes positionally
(`[0]` = index, `[1]` = type, `[2]` = state, `[5]` = name). -/
structure RfkillEvent where
  index : Nat
  ty : Int
  state : Int
  soft : Int
  hard : Int
  name : String
deriving DecidableEq

/-- A registered killswitch as the registry stores it: the `Killswitch`
object built by `Killswitch.__init__` keeps `udi`, `name` and `type`
unchanged for its lifetime. `α` is the backend-specific id type
(URfkill: numeric index, HAL: object-path string); `τ` is the type-tag
type (URfkill: `String`, HAL: the property lookup result, which may be
absent). -/
structure Device (α : Type) (τ : Type) where
  udi : α
  name : String
  ty : τ
deriving DecidableEq

/-- Translates `_KillswitchUrfkill.get_state`:
`return not self.manager_interface.GetKillswitch(self.udi())[2]`.
Python `not v` on the integer third field is `True` iff `v == 0`; the
resulting boolean compares to the state constants as `1` / `0`. -/
def urfkill_get_state (reply : RfkillEvent) : Nat :=
  if reply.state = 0 then 1 else 0

/-- A request the URfkill adapter can issue on the bus. -/
inductive BusCall where
  | unblockIdx (index : Nat)
  | blockIdx (index : Nat)
deriving DecidableEq

/-- Translates `_KillswitchUrfkill.set_state`: `state == 1` issues
`UnblockIdx(udi)`, `state == 0` issues `BlockIdx(udi)`, anything else
only logs "Unknown state" (the `Bool` component; no call, no raise). -/
def urfkill_set_state (udi : Nat) (state : Int) : List BusCall × Bool :=
  if state = 1 then ([BusCall.unblockIdx udi], false)
  else if state = 0 then ([BusCall.blockIdx udi], false)
  else ([], true)

/-- Translates `_KillswitchManagerUrfkill.__get_name_for_type`. -/
def get_name_for_type (t : Int) : String :=
  if t = 0 then "type all"
  else if t = 1 then "wlan"
  else if t = 2 then "bluetooth"
  else if t = 3 then "uwb"
  else if t = 4 then "wimax"
  else if t = 5 then "wwan"
  else if t = 6 then "gps"
  else if t = 7 then "fm"
  else "unknown type"

/-- Translates the discovery loop of `_KillswitchManagerUrfkill.__init__`:
for every entry `ks` of the `GetAll` reply it appends
`Killswitch(bus, ks[0], ks[5], __get_name_for_type(ks[1]))` to
`self._switches`, with no check of any kind (no deduplication, no name
validation). -/
def urfkill_discover (reply : List RfkillEvent) : List (Device Nat String) :=
  reply.map (fun ks => ⟨ks.index, ks.name, get_name_for_type ks.ty⟩)

/-- Outcome of running a bus-notification handler: the registry after the
handler returned (or after the exception escaped), the devices delivered
to the registered observer, in order, and whether a `TypeError` escaped
because an observer slot still holding `None` was called. -/
structure HandlerResult (α : Type) (τ : Type) where
  switches : List (Device α τ)
  observed : List (Device α τ)
  raised : Bool
deriving DecidableEq

/-- Translates `_KillswitchManagerUrfkill.__killswitch_added_cb`: if some
registered device already has the signalled index, log and return;
otherwise build the new `Killswitch` from the payload (no name
validation), append it to `self._switches`, and only then call
`self._killswitch_added_cb(ks)` — which raises `TypeError` when the slot
is still `None` (`cbSet = false`), after the append has already
happened. -/
def urfkill_added_cb (cbSet : Bool) (switches : List (Device Nat String))
    (e : RfkillEvent) : HandlerResult Nat String :=
  if switches.any (fun item => e.index == item.udi) then
    ⟨switches, [], false⟩
  else
    ⟨switches ++ [⟨e.index, e.name, get_name_for_type e.ty⟩],
     if cbSet then [⟨e.index, e.name, get_name_for_type e.ty⟩] else [],
     !cbSet⟩

/-- What the HAL backend reports about one device: whether it advertises
the `killswitch` capability, and its `killswitch.name`, `info.product`
and `killswitch.type` properties as `__hal_get_property` sees them
(`none` models `PropertyExists` returning false, in which case the
source's helper returns Python `False`). -/
structure HalDeviceInfo where
  hasKillswitchCap : Bool
  ksName : Option String
  product : Option String
  ksType : Option String
deriving DecidableEq

/-- Translates `_KillswitchManagerHal.__device_added_cb`: only devices
with the `killswitch` capability are considered; a duplicate path logs
and returns; the name is `killswitch.name`, falling back to
`info.product`, and the device is skipped when both are absent;
otherwise the new `Killswitch` is appended and then the added-observer
is invoked (raising `TypeError` when the slot is `None`). -/
def hal_device_added_cb (cbSet : Bool)
    (switches : List (Device String (Option String)))
    (path : String) (dev : HalDeviceInfo) :
    HandlerResult String (Option String) :=
  if dev.hasKillswitchCap then
    if switches.any (fun item => path == item.udi) then
      ⟨switches, [], false⟩
    else
      match dev.ksName with
      | some n =>
          ⟨switches ++ [⟨path, n, dev.ksType⟩],
           if cbSet then [⟨path, n, dev.ksType⟩] else [], !cbSet⟩
      | none =>
          match dev.product with
          | some n =>
              ⟨switches ++ [⟨path, n, dev.ksType⟩],
               if cbSet then [⟨path, n, dev.ksType⟩] else [], !cbSet⟩
          | none => ⟨switches, [], false⟩
  else ⟨switches, [], false⟩

/-- Translates the discovery loop of `_KillswitchManagerHal.__init__`
over the udis returned by `FindDeviceByCapability("killswitch")`: read
`killswitch.name`, fall back to `info.product`, `continue` (skip) when
both are absent, else append
`Killswitch(bus, udi, name, killswitch.type)`. No deduplication. -/
def hal_discover (devs : List (String × HalDeviceInfo)) :
    List (Device String (Option String)) :=
  match devs with
  | [] => []
  | (udi, d) :: rest =>
    match d.ksName with
    | some n => ⟨udi, n, d.ksType⟩ :: hal_discover rest
    | none =>
      match d.product with
      | some n => ⟨udi, n, d.ksType⟩ :: hal_discover rest
      | none => hal_discover rest

/-- Python's `list.remove(x)`: delete the first element equal to `x`
(identity for `Killswitch` instances; under the registry invariant that
no two value-equal adapters coexist, value equality coincides with it).
Removing an absent element is a no-op here; the source only removes an
element it just fetched from the list. -/
def pyRemove {α τ : Type} [DecidableEq α] [DecidableEq τ]
    (l : List (Device α τ)) (d : Device α τ) : List (Device α τ) :=
  match l with
  | [] => []
  | x :: xs => if x = d then xs else x :: pyRemove xs d

theorem pyRemove_sublist {α τ : Type} [DecidableEq α] [DecidableEq τ]
    (l : List (Device α τ)) (d : Device α τ) :
    List.Sublist (pyRemove l d) l := by
  induction l with
  | nil => simp [pyRemove]
  | cons x xs ih =>
      by_cases h : x = d
      · simp [pyRemove, h]
      · simpa [pyRemove, h] using List.Sublist.cons₂ x ih

theorem pyRemove_length_lt {α τ : Type} [DecidableEq α] [DecidableEq τ]
    {l : List (Device α τ)} {d : Device α τ} (h : d ∈ l) :
    (pyRemove l d).length < l.length := by
  induction l with
  | nil => cases h
  | cons x xs ih =>
      by_cases hx : x = d
      · simp [pyRemove, hx]
      · have hd : d ∈ xs := by
          cases List.mem_cons.mp h with
          | inl he => exact absurd he.symm hx
          | inr hm => exact hm
        simpa [pyRemove, hx] using ih hd

/-- Translates the removal loop shared verbatim by
`_KillswitchManagerUrfkill.__killswitch_removed_cb` and
`_KillswitchManagerHal.__device_removed_cb`:

    for item in self._switches:
        if index == item.udi():
            self._killswitch_removed_cb(item)
            self._switches.remove(item)

Python's `for` keeps an internal position `i` that advances every
iteration while `remove` shrinks the list in place, so the loop is
modelled index-wise. The observer is invoked before the removal, with
the device object (its original `udi`, `name`, `ty`) intact; the second
component collects those deliveries in order. -/
def removed_loop {α τ : Type} [DecidableEq α] [DecidableEq τ]
    (idx : α) (l : List (Device α τ)) (i : Nat) :
    List (Device α τ) × List (Device α τ) :=
  if h : i < l.length then
    if (l.get ⟨i, h⟩).udi = idx then
      let r := removed_loop idx (pyRemove l (l.get ⟨i, h⟩)) (i + 1)
      (r.1, l.get ⟨i, h⟩ :: r.2)
    else
      removed_loop idx l (i + 1)
  else (l, [])
termination_by l.length - i
decreasing_by
  · have hm : l.get ⟨i, h⟩ ∈ l := l.get_mem i h
    have := pyRemove_length_lt hm
    omega
  · omega

/-- The removed-notification handler, entered with the iterator at
position 0 (both backend variants). -/
def removed_cb {α τ : Type} [DecidableEq α] [DecidableEq τ]
    (idx : α) (l : List (Device α τ)) :
    List (Device α τ) × List (Device α τ) :=
  removed_loop idx l 0

/-- Outcome of `bus.get_object(URFKILL_SERVICE, URFKILL_PATH)` inside
`_have_urfkill` (the activation attempt): it succeeds, or raises a D-Bus
error whose name is `ServiceUnknown`, or raises some other D-Bus error
(caught, not matched, so execution falls through to the re-check). -/
inductive Activation where
  | ok
  | serviceUnknown
  | otherDBusError
deriving DecidableEq

/-- The bus behaviour the probe functions observe: ownership of the two
well-known service names and the outcome of the URfkill activation
attempt, including whether the name is owned on the re-check after it. -/
structure Bus where
  urfkillOwned : Bool
  activation : Activation
  urfkillOwnedAfterStart : Bool
  halOwned : Bool
deriving DecidableEq

/-- Translates `_have_urfkill`: return 1 when the name is owned; else
try to activate via `get_object`, returning 0 on a `ServiceUnknown`
D-Bus error; then re-check ownership. -/
def have_urfkill (b : Bus) : Bool :=
  if b.urfkillOwned then true
  else
    match b.activation with
    | Activation.serviceUnknown => false
    | _ => b.urfkillOwnedAfterStart

/-- Translates `_have_hal`: just a `name_has_owner` check. -/
def have_hal (b : Bus) : Bool := b.halOwned

/-- The backend a `KillswitchManager` can drive. -/
inductive Backend where
  | urfkill
  | hal
deriving DecidableEq

/-- Translates the backend selection of `KillswitchManager.__init__`:
`_have_urfkill()` first, `_have_hal()` only when that failed, else the
"bailing out" log line and no backend at all. The first component is the
chosen backend (`none`: no backend, `self.k` never assigned); the second
records whether `_have_hal` was probed. -/
def manager_init (b : Bus) : Option Backend × Bool :=
  if have_urfkill b then (some Backend.urfkill, false)
  else if have_hal b then (some Backend.hal, true)
  else (none, true)

/-- The error taxonomy entry the spec assigns to a failed construction. -/
inductive KillswitchError where
  | NoBackendAvailable
deriving DecidableEq

/-- Construction outcome of `KillswitchManager.__init__` as the source
defines it: the body raises nothing — the no-backend branch only logs
"Neither urfkill nor HAL found, bailing out..." — so the result is
always `Except.ok` of the (possibly absent) chosen backend. The `Except`
codomain records the absence of any raise, for comparison with the
spec's `NoBackendAvailable` failure. -/
def manager_construct (b : Bus) : Except KillswitchError (Option Backend) :=
  Except.ok (manager_init b).1

/-- One `set_state` request as issued by the bulk operations: the target
device's id and the requested state. -/
structure SetStateCall (α : Type) where
  udi : α
  state : Int
deriving DecidableEq

/-- Translates the loop shared by `KillswitchManager.enable_all` and
`disable_all`: `for ks in self.k._switches: ks.set_state(st)`. The call
on each device either returns or raises a D-Bus error (`fails`); the
loop body has no exception handling, so a raise escapes the loop and the
remaining devices are never visited. Returns the calls issued, in order
(a failing call is still issued), and whether an exception escaped. -/
def set_all_loop {α τ : Type} (fails : Device α τ → Bool) (st : Int)
    (switches : List (Device α τ)) : List (SetStateCall α) × Bool :=
  match switches with
  | [] => ([], false)
  | ks :: rest =>
    if fails ks then ([⟨ks.udi, st⟩], true)
    else
      let r := set_all_loop fails st rest
      (⟨ks.udi, st⟩ :: r.1, r.2)

/-- Translates `KillswitchManager.enable_all`. -/
def enable_all {α τ : Type} (fails : Device α τ → Bool)
    (switches : List (Device α τ)) : List (SetStateCall α) × Bool :=
  set_all_loop fails 1 switches

/-- Translates `KillswitchManager.disable_all`. -/
def disable_all {α τ : Type} (fails : Device α τ → Bool)
    (switches : List (Device α τ)) : List (SetStateCall α) × Bool :=
  set_all_loop fails 0 switches

/-- Registry states reachable from `s` through the URfkill backend's
notification handlers (`__killswitch_added_cb`, `__killswitch_removed_cb`;
`__killswitch_modified_cb` never mutates `self._switches`). -/
inductive UReach : List (Device Nat String) → List (Device Nat String) → Prop
  | refl (s : List (Device Nat String)) : UReach s s
  | added (s t : List (Device Nat String)) (cbSet : Bool) (e : RfkillEvent) :
      UReach s t → UReach s (urfkill_added_cb cbSet t e).switches
  | removed (s t : List (Device Nat String)) (idx : Nat) :
      UReach s t → UReach s (removed_cb idx t).1

/-- Registry states reachable from `s` through the HAL backend's
notification handlers (`__device_added_cb`, `__device_removed_cb`;
`__property_modified_cb` never mutates `self._switches`). -/
inductive HReach : List (Device String (Option String)) →
    List (Device String (Option String)) → Prop
  | refl (s : List (Device String (Option String))) : HReach s s
  | added (s t : List (Device String (Option String))) (cbSet : Bool)
      (path : String) (dev : HalDeviceInfo) :
      HReach s t → HReach s (hal_device_added_cb cbSet t path dev).switches
  | removed (s t : List (Device String (Option String))) (idx : String) :
      HReach s t → HReach s (removed_cb idx t).1

/-! ## Helper lemmas about the removal loop -/

theorem pyRemove_length_succ {α τ : Type} [DecidableEq α] [DecidableEq τ]
    {l : List (Device α τ)} {d : Device α τ} (h : d ∈ l) :
    (pyRemove l d).length + 1 = l.length := by
  induction l with
  | nil => cases h
  | cons x xs ih =>
      by_cases hx : x = d
      · simp [pyRemove, hx]
      · have hd : d ∈ xs := by
          cases List.mem_cons.mp h with
          | inl he => exact absurd he.symm hx
          | inr hm => exact hm
        simp [pyRemove, hx, ih hd]

theorem pyRemove_no_more {α τ : Type} [DecidableEq α] [DecidableEq τ]
    {l : List (Device α τ)} {d : Device α τ} {idx : α}
    (hnd : (l.map Device.udi).Nodup) (hd : d ∈ l) (hudi : d.udi = idx) :
    ∀ x ∈ pyRemove l d, x.udi ≠ idx := by
  induction l with
  | nil => cases hd
  | cons e xs ih =>
      simp only [List.map_cons, List.nodup_cons] at hnd
      by_cases he : e = d
      · intro x hx hxi
        rw [pyRemove, if_pos he] at hx
        exact hnd.1 (by
          refine List.mem_map.mpr ⟨x, hx, ?_⟩
          rw [hxi, ← hudi, he])
      · have hdxs : d ∈ xs := by
          cases List.mem_cons.mp hd with
          | inl h2 => exact absurd h2.symm he
          | inr h2 => exact h2
        intro x hx hxi
        rw [pyRemove, if_neg he] at hx
        cases List.mem_cons.mp hx with
        | inl h2 =>
            exact hnd.1 (by
              refine List.mem_map.mpr ⟨d, hdxs, ?_⟩
              rw [hudi, ← hxi, h2])
        | inr h2 => exact ih hnd.2 hdxs x h2 hxi

theorem removed_loop_no_match {α τ : Type} [DecidableEq α] [DecidableEq τ]
    (idx : α) (l : List (Device α τ)) (i : Nat)
    (hx : ∀ x ∈ l.drop i, x.udi ≠ idx) :
    removed_loop idx l i = (l, []) := by
  rw [removed_loop]
  split
  · next h =>
      have hmem : l.get ⟨i, h⟩ ∈ l.drop i := by
        rw [List.drop_eq_getElem_cons h]
        exact List.mem_cons_self _ _
      rw [if_neg (hx _ hmem)]
      exact removed_loop_no_match idx l (i + 1) (fun x hx2 =>
        hx x (by
          rw [List.drop_eq_getElem_cons h]
          exact List.mem_cons_of_mem _ hx2))
  · rfl
termination_by l.length - i

theorem removed_loop_match {α τ : Type} [DecidableEq α] [DecidableEq τ]
    (idx : α) (l : List (Device α τ)) (i : Nat)
    (hnd : (l.map Device.udi).Nodup) (d : Device α τ)
    (hd : d ∈ l.drop i) (hudi : d.udi = idx) :
    removed_loop idx l i = (pyRemove l d, [d]) := by
  rw [removed_loop]
  split
  · next h =>
      have hil : l.get ⟨i, h⟩ ∈ l := l.get_mem i h
      have hdl : d ∈ l := List.drop_subset i l hd
      by_cases hm : (l.get ⟨i, h⟩).udi = idx
      · rw [if_pos hm]
        have heq : l.get ⟨i, h⟩ = d :=
          List.inj_on_of_nodup_map hnd hil hdl (by rw [hm, hudi])
        have hrest : removed_loop idx (pyRemove l d) (i + 1) = (pyRemove l d, []) :=
          removed_loop_no_match idx (pyRemove l d) (i + 1) (fun x hx2 =>
            pyRemove_no_more hnd hdl hudi x (List.drop_subset _ _ hx2))
        simp only [heq, hrest]
      · rw [if_neg hm]
        have hd2 : d ∈ l.drop (i + 1) := by
          rw [List.drop_eq_getElem_cons h] at hd
          cases List.mem_cons.mp hd with
          | inl h2 =>
              exfalso
              apply hm
              rw [show l.get ⟨i, h⟩ = l[i] from rfl, ← h2, hudi]
          | inr h2 => exact h2
        exact removed_loop_match idx l (i + 1) hnd d hd2 hudi
  · next h =>
      exfalso
      rw [List.drop_eq_nil_of_le (by omega)] at hd
      cases hd
termination_by l.length - i

theorem removed_loop_sublist_fuel {α τ : Type} [DecidableEq α] [DecidableEq τ]
    (idx : α) : ∀ (n : Nat) (l : List (Device α τ)) (i : Nat),
    l.length - i ≤ n → List.Sublist (removed_loop idx l i).1 l := by
  intro n
  induction n with
  | zero =>
      intro l i hle
      rw [removed_loop, dif_neg (by omega)]
  | succ n ih =>
      intro l i hle
      rw [removed_loop]
      split
      · next h =>
          split
          · have hm : l.get ⟨i, h⟩ ∈ l := l.get_mem i h
            have hlen := pyRemove_length_lt hm
            exact List.Sublist.trans
              (ih (pyRemove l (l.get ⟨i, h⟩)) (i + 1) (by omega))
              (pyRemove_sublist l (l.get ⟨i, h⟩))
          · exact ih l (i + 1) (by omega)
      · exact List.Sublist.refl l

theorem removed_loop_sublist {α τ : Type} [DecidableEq α] [DecidableEq τ]
    (idx : α) (l : List (Device α τ)) (i : Nat) :
    List.Sublist (removed_loop idx l i).1 l :=
  removed_loop_sublist_fuel idx (l.length - i) l i (Nat.le_refl _)

theorem removed_cb_nodup {α τ : Type} [DecidableEq α] [DecidableEq τ]
    (idx : α) (l : List (Device α τ))
    (hnd : (l.map Device.udi).Nodup) :
    ((removed_cb idx l).1.map Device.udi).Nodup :=
  List.Nodup.sublist (List.Sublist.map _ (removed_loop_sublist idx l 0)) hnd

/-! ## Helper lemmas about the added handlers -/

theorem urfkill_added_cb_dup {cbSet : Bool} {switches : List (Device Nat String)}
    {e : RfkillEvent} (h : e.index ∈ switches.map Device.udi) :
    urfkill_added_cb cbSet switches e = ⟨switches, [], false⟩ := by
  have hany : switches.any (fun item => e.index == item.udi) = true := by
    rcases List.mem_map.mp h with ⟨d, hd, he⟩
    exact List.any_eq_true.mpr ⟨d, hd, by simp [he]⟩
  rw [urfkill_added_cb, if_pos hany]

theorem urfkill_added_cb_fresh {cbSet : Bool} {switches : List (Device Nat String)}
    {e : RfkillEvent} (h : e.index ∉ switches.map Device.udi) :
    urfkill_added_cb cbSet switches e =
      ⟨switches ++ [⟨e.index, e.name, get_name_for_type e.ty⟩],
       if cbSet then [⟨e.index, e.name, get_name_for_type e.ty⟩] else [],
       !cbSet⟩ := by
  have hany : switches.any (fun item => e.index == item.udi) = false := by
    rw [← Bool.not_eq_true, List.any_eq_true]
    rintro ⟨d, hd, he⟩
    exact h (List.mem_map.mpr ⟨d, hd, (beq_iff_eq.mp he).symm⟩)
  rw [urfkill_added_cb, hany]
  simp

theorem urfkill_added_cb_nodup {cbSet : Bool} {switches : List (Device Nat String)}
    {e : RfkillEvent} (hnd : (switches.map Device.udi).Nodup) :
    (((urfkill_added_cb cbSet switches e).switches).map Device.udi).Nodup := by
  by_cases h : e.index ∈ switches.map Device.udi
  · rw [urfkill_added_cb_dup h]
    exact hnd
  · rw [urfkill_added_cb_fresh h]
    simp only [List.map_append, List.map_cons, List.map_nil]
    rw [List.nodup_append]
    refine ⟨hnd, List.nodup_singleton _, ?_⟩
    intro a ha hb
    rw [List.mem_singleton.mp hb] at ha
    exact h ha

theorem hal_added_cb_dup {cbSet : Bool}
    {switches : List (Device String (Option String))}
    {path : String} {dev : HalDeviceInfo}
    (h : path ∈ switches.map Device.udi) :
    hal_device_added_cb cbSet switches path dev = ⟨switches, [], false⟩ := by
  have hany : switches.any (fun item => path == item.udi) = true := by
    rcases List.mem_map.mp h with ⟨d, hd, he⟩
    exact List.any_eq_true.mpr ⟨d, hd, by simp [he]⟩
  rw [hal_device_added_cb]
  by_cases hc : dev.hasKillswitchCap
  · rw [if_pos hc, if_pos hany]
  · rw [if_neg hc]

theorem nodup_map_snoc {α τ : Type} (switches : List (Device α τ))
    (d : Device α τ) (h : d.udi ∉ switches.map Device.udi)
    (hnd : (switches.map Device.udi).Nodup) :
    (((switches ++ [d]).map Device.udi)).Nodup := by
  simp only [List.map_append, List.map_cons, List.map_nil]
  rw [List.nodup_append]
  refine ⟨hnd, List.nodup_singleton _, ?_⟩
  intro a ha hb
  rw [List.mem_singleton.mp hb] at ha
  exact h ha

theorem hal_added_cb_nodup {cbSet : Bool}
    {switches : List (Device String (Option String))}
    {path : String} {dev : HalDeviceInfo}
    (hnd : (switches.map Device.udi).Nodup) :
    (((hal_device_added_cb cbSet switches path dev).switches).map Device.udi).Nodup := by
  by_cases h : path ∈ switches.map Device.udi
  · rw [hal_added_cb_dup h]
    exact hnd
  · rw [hal_device_added_cb]
    split
    · split
      · exact hnd
      · split
        · exact nodup_map_snoc switches _ h hnd
        · split
          · exact nodup_map_snoc switches _ h hnd
          · exact hnd
    · exact hnd

/-! ## Claim C1 -/

/-- C1, counterexample: for a hard-blocked device (hard flag set,
URfkill state field 2 = hard-blocked), `get_state` returns 0, not the
claimed OFF-HARD value 2 — the adapter computes Python
`not reply[2]`, a boolean, and can never produce 2. -/
theorem c1_counterexample :
    urfkill_get_state ⟨0, 1, 2, 0, 1, "phy0"⟩ = 0 ∧
    urfkill_get_state ⟨0, 1, 2, 0, 1, "phy0"⟩ ≠ 2 := by
  constructor
  · rfl
  · decide

/-- C1, amended: `_KillswitchUrfkill.get_state` returns the Python
negation of the reply's third field coerced to an integer: 1 (ON) when
the field is 0 (neither block flag set), 0 otherwise — i.e. both a
soft-only block and a hard block yield 0; the uniform OFF-HARD value 2
is never produced. -/
theorem c1_theorem (e : RfkillEvent) :
    (e.state = 0 → urfkill_get_state e = 1) ∧
    (e.state ≠ 0 → urfkill_get_state e = 0) ∧
    urfkill_get_state e ≠ 2 := by
  refine ⟨fun h => ?_, fun h => ?_, ?_⟩
  · rw [urfkill_get_state, if_pos h]
  · rw [urfkill_get_state, if_neg h]
  · rw [urfkill_get_state]
    split <;> decide

/-- C1, witness for the amended theorem at concrete replies. -/
theorem c1_witness :
    urfkill_get_state ⟨3, 1, 0, 0, 0, "wl"⟩ = 1 ∧
    urfkill_get_state ⟨3, 1, 1, 1, 0, "wl"⟩ = 0 := by
  constructor
  · exact (c1_theorem ⟨3, 1, 0, 0, 0, "wl"⟩).1 rfl
  · exact (c1_theorem ⟨3, 1, 1, 1, 0, "wl"⟩).2.1 (by decide)

/-! ## Claim C3 -/

/-- C3: whenever URfkill's well-known name is owned on the bus,
`KillswitchManager.__init__` selects the URfkill backend — whatever
HAL's ownership state — and `_have_hal` is never probed; conversely
HAL is probed only when `_have_urfkill` came back false. -/
theorem c3_theorem (b : Bus) :
    (b.urfkillOwned = true → manager_init b = (some Backend.urfkill, false)) ∧
    ((manager_init b).2 = true → have_urfkill b = false) := by
  constructor
  · intro h
    have hu : have_urfkill b = true := by rw [have_urfkill, if_pos h]
    rw [manager_init, if_pos hu]
  · intro h
    by_cases hu : have_urfkill b = true
    · rw [manager_init, if_pos hu] at h
      cases h
    · exact Bool.not_eq_true _ |>.mp hu

/-- C3, witness: a bus owning both service names selects URfkill and
does not probe HAL. -/
theorem c3_witness :
    manager_init ⟨true, Activation.ok, true, true⟩ =
      (some Backend.urfkill, false) :=
  (c3_theorem ⟨true, Activation.ok, true, true⟩).1 rfl

/-! ## Claim C4 -/

/-- C4, counterexample: on a bus owning neither service name (and whose
URfkill activation attempt raises ServiceUnknown), construction does
not fail with `NoBackendAvailable` — `KillswitchManager.__init__` raises
nothing, merely logs "bailing out" and leaves no backend selected. -/
theorem c4_counterexample :
    manager_construct ⟨false, Activation.serviceUnknown, false, false⟩ =
      Except.ok none ∧
    manager_construct ⟨false, Activation.serviceUnknown, false, false⟩ ≠
      Except.error KillswitchError.NoBackendAvailable := by
  refine ⟨rfl, fun h => ?_⟩
  rw [show manager_construct ⟨false, Activation.serviceUnknown, false, false⟩ =
      Except.ok none from rfl] at h
  exact Except.noConfusion h

/-- C4, amended: when neither backend's name is owned and URfkill cannot
be activated, construction completes without raising: no backend is
selected (`self.k` is never assigned, so the manager is non-functional),
HAL was probed, and the only signal is the logged failure — there is no
`NoBackendAvailable` exception. -/
theorem c4_theorem (b : Bus) (hu : b.urfkillOwned = false)
    (hh : b.halOwned = false)
    (ha : b.activation = Activation.serviceUnknown ∨
          b.urfkillOwnedAfterStart = false) :
    manager_init b = (none, true) ∧ manager_construct b = Except.ok none := by
  have hntu : have_urfkill b = false := by
    rw [have_urfkill, if_neg (by rw [hu]; exact Bool.false_ne_true)]
    cases ha with
    | inl h => rw [h]
    | inr h =>
        cases hac : b.activation with
        | serviceUnknown => rfl
        | ok => exact h
        | otherDBusError => exact h
  have hinit : manager_init b = (none, true) := by
    rw [manager_init, if_neg (by rw [hntu]; exact Bool.false_ne_true),
      if_neg (by rw [have_hal, hh]; exact Bool.false_ne_true)]
  exact ⟨hinit, by rw [manager_construct, hinit]⟩

/-- C4, witness for the amended theorem at a concrete dead bus. -/
theorem c4_witness :
    manager_init ⟨false, Activation.otherDBusError, false, false⟩ =
      (none, true) ∧
    manager_construct ⟨false, Activation.otherDBusError, false, false⟩ =
      Except.ok none :=
  c4_theorem ⟨false, Activation.otherDBusError, false, false⟩ rfl rfl
    (Or.inr rfl)

/-! ## Claim C7 -/

/-- C7: `_KillswitchUrfkill.set_state` issues exactly one `UnblockIdx`
call for state 1, exactly one `BlockIdx` call for state 0, and for any
other value issues no bus call at all, only logging "Unknown state"
(the handler returns normally, nothing is raised). -/
theorem c7_theorem (udi : Nat) (st : Int) :
    (st = 1 → urfkill_set_state udi st = ([BusCall.unblockIdx udi], false)) ∧
    (st = 0 → urfkill_set_state udi st = ([BusCall.blockIdx udi], false)) ∧
    (st ≠ 0 → st ≠ 1 → urfkill_set_state udi st = ([], true)) := by
  refine ⟨fun h => ?_, fun h => ?_, fun h0 h1 => ?_⟩
  · rw [urfkill_set_state, if_pos h]
  · rw [urfkill_set_state, if_neg (by rw [h]; decide), if_pos h]
  · rw [urfkill_set_state, if_neg h1, if_neg h0]

/-- C7, witness at device index 3 with requested states 1, 0 and 5. -/
theorem c7_witness :
    urfkill_set_state 3 1 = ([BusCall.unblockIdx 3], false) ∧
    urfkill_set_state 3 0 = ([BusCall.blockIdx 3], false) ∧
    urfkill_set_state 3 5 = ([], true) :=
  ⟨(c7_theorem 3 1).1 rfl, (c7_theorem 3 0).2.1 rfl,
   (c7_theorem 3 5).2.2 (by decide) (by decide)⟩

/-! ## Claim C9 -/

/-- C9, counterexample: type code 0 is mapped to the string
`"type all"`, not to the claimed tag `"all"`. -/
theorem c9_counterexample :
    get_name_for_type 0 = "type all" ∧ get_name_for_type 0 ≠ "all" := by
  constructor
  · rfl
  · decide

/-- C9, amended: `__get_name_for_type` maps 0 to `"type all"` (not
`"all"`), 1..7 to wlan, bluetooth, uwb, wimax, wwan, gps, fm, and every
other integer (negative ones included) to `"unknown type"`. -/
theorem c9_theorem (t : Int) :
    get_name_for_type 0 = "type all" ∧
    get_name_for_type 1 = "wlan" ∧
    get_name_for_type 2 = "bluetooth" ∧
    get_name_for_type 3 = "uwb" ∧
    get_name_for_type 4 = "wimax" ∧
    get_name_for_type 5 = "wwan" ∧
    get_name_for_type 6 = "gps" ∧
    get_name_for_type 7 = "fm" ∧
    ((t < 0 ∨ 7 < t) → get_name_for_type t = "unknown type") := by
  refine ⟨rfl, rfl, rfl, rfl, rfl, rfl, rfl, rfl, fun h => ?_⟩
  have h0 : t ≠ 0 := by omega
  have h1 : t ≠ 1 := by omega
  have h2 : t ≠ 2 := by omega
  have h3 : t ≠ 3 := by omega
  have h4 : t ≠ 4 := by omega
  have h5 : t ≠ 5 := by omega
  have h6 : t ≠ 6 := by omega
  have h7 : t ≠ 7 := by omega
  rw [get_name_for_type, if_neg h0, if_neg h1, if_neg h2, if_neg h3,
    if_neg h4, if_neg h5, if_neg h6, if_neg h7]

/-- C9, witness: the out-of-table branch at -3 and the table rows. -/
theorem c9_witness :
    get_name_for_type (-3) = "unknown type" ∧ get_name_for_type 6 = "gps" :=
  ⟨(c9_theorem (-3)).2.2.2.2.2.2.2.2 (Or.inl (by decide)),
   (c9_theorem 0).2.2.2.2.2.2.1⟩

/-! ## Claim C2 -/

/-- C2, counterexample: initial discovery performs no deduplication —
a `GetAll` reply listing index 0 twice yields a registry of size 2 whose
ids are not pairwise distinct, a reachable registry state violating the
claimed invariant. -/
theorem c2_counterexample :
    (urfkill_discover [⟨0, 1, 0, 0, 0, "a"⟩, ⟨0, 1, 0, 0, 0, "b"⟩]).length = 2 ∧
    ¬ ((urfkill_discover [⟨0, 1, 0, 0, 0, "a"⟩,
        ⟨0, 1, 0, 0, 0, "b"⟩]).map Device.udi).Nodup := by
  constructor
  · rfl
  · have h : (urfkill_discover [⟨0, 1, 0, 0, 0, "a"⟩,
        ⟨0, 1, 0, 0, 0, "b"⟩]).map Device.udi = [0, 0] := rfl
    rw [h]
    decide

/-- C2, amended: the notification handlers of both backends preserve
pairwise distinctness of registered ids — so every state reachable by
notifications from a registry with distinct ids keeps them distinct —
and an "added" notification whose id is already registered leaves the
registry size unchanged. (Distinctness of the post-discovery state
itself is inherited from the backend's reply: discovery does not
deduplicate, see the counterexample.) -/
theorem c2_theorem :
    (∀ s t, UReach s t → (s.map Device.udi).Nodup →
        (t.map Device.udi).Nodup) ∧
    (∀ s t, HReach s t → (s.map Device.udi).Nodup →
        (t.map Device.udi).Nodup) ∧
    (∀ (cbSet : Bool) (t : List (Device Nat String)) (e : RfkillEvent),
        e.index ∈ t.map Device.udi →
        (urfkill_added_cb cbSet t e).switches.length = t.length) ∧
    (∀ (cbSet : Bool) (t : List (Device String (Option String)))
        (path : String) (dev : HalDeviceInfo),
        path ∈ t.map Device.udi →
        (hal_device_added_cb cbSet t path dev).switches.length = t.length) := by
  refine ⟨?_, ?_, ?_, ?_⟩
  · intro s t hr hnd
    induction hr with
    | refl => exact hnd
    | added t cbSet e _ ih => exact urfkill_added_cb_nodup ih
    | removed t idx _ ih => exact removed_cb_nodup idx t ih
  · intro s t hr hnd
    induction hr with
    | refl => exact hnd
    | added t cbSet path dev _ ih => exact hal_added_cb_nodup ih
    | removed t idx _ ih => exact removed_cb_nodup idx t ih
  · intro cbSet t e h
    rw [urfkill_added_cb_dup h]
  · intro cbSet t path dev h
    rw [hal_added_cb_dup h]

/-- C2, witness: one added step from a singleton registry keeps ids
distinct, and a duplicate added notification keeps size 1. -/
theorem c2_witness :
    (((urfkill_added_cb true [⟨0, "a", "wlan"⟩]
        ⟨1, 6, 0, 0, 0, "g"⟩).switches).map Device.udi).Nodup ∧
    (urfkill_added_cb true [⟨0, "a", "wlan"⟩]
        ⟨0, 2, 0, 0, 0, "c"⟩).switches.length = 1 := by
  constructor
  · exact c2_theorem.1 [⟨0, "a", "wlan"⟩] _
      (UReach.added _ _ true ⟨1, 6, 0, 0, 0, "g"⟩ (UReach.refl _))
      (by decide)
  · exact c2_theorem.2.2.1 true [⟨0, "a", "wlan"⟩] ⟨0, 2, 0, 0, 0, "c"⟩
      (by decide)

/-! ## Claim C5 -/

/-- C5: on a registry satisfying the documented invariant (pairwise
distinct ids), a "removed" notification for a registered id shrinks the
registry by exactly one and delivers to the removed-observer exactly the
matching device, with its original `udi`, `name` and `ty` intact (the
loop invokes the observer before `list.remove`); a notification for an
unknown id changes nothing and delivers nothing. Stated over the shared
removal loop of both backend variants. -/
theorem c5_theorem {α τ : Type} [DecidableEq α] [DecidableEq τ]
    (idx : α) (l : List (Device α τ)) (hnd : (l.map Device.udi).Nodup) :
    (∀ d ∈ l, d.udi = idx →
        (removed_cb idx l).1.length + 1 = l.length ∧
        (removed_cb idx l).2 = [d]) ∧
    ((∀ d ∈ l, d.udi ≠ idx) → removed_cb idx l = (l, [])) := by
  constructor
  · intro d hd hudi
    have h := removed_loop_match idx l 0 hnd d (by simpa using hd) hudi
    rw [removed_cb, h]
    exact ⟨pyRemove_length_succ hd, rfl⟩
  · intro h
    exact removed_loop_no_match idx l 0 (by simpa using h)

/-- C5, witness: removing id 1 from a two-device registry, and a no-op
removal of the unknown id 5. -/
theorem c5_witness :
    (removed_cb 1 ([⟨0, "a", "wlan"⟩, ⟨1, "b", "gps"⟩] :
        List (Device Nat String))).1.length + 1 = 2 ∧
    (removed_cb 1 ([⟨0, "a", "wlan"⟩, ⟨1, "b", "gps"⟩] :
        List (Device Nat String))).2 = [⟨1, "b", "gps"⟩] ∧
    removed_cb 5 ([⟨0, "a", "wlan"⟩, ⟨1, "b", "gps"⟩] :
        List (Device Nat String)) =
      ([⟨0, "a", "wlan"⟩, ⟨1, "b", "gps"⟩], []) := by
  refine ⟨?_, ?_, ?_⟩
  · exact ((c5_theorem 1 _ (by decide)).1 ⟨1, "b", "gps"⟩ (by decide) rfl).1
  · exact ((c5_theorem 1 _ (by decide)).1 ⟨1, "b", "gps"⟩ (by decide) rfl).2
  · exact (c5_theorem 5 _ (by decide)).2 (by decide)

/-! ## Claim C6 -/

theorem set_all_loop_ok {α τ : Type} (fails : Device α τ → Bool) (st : Int)
    (switches : List (Device α τ)) (h : ∀ x ∈ switches, fails x = false) :
    set_all_loop fails st switches =
      (switches.map (fun k => ⟨k.udi, st⟩), false) := by
  induction switches with
  | nil => rfl
  | cons ks rest ih =>
      rw [set_all_loop, if_neg (by rw [h ks (List.mem_cons_self _ _)]; decide),
        ih (fun x hx => h x (List.mem_cons_of_mem _ hx))]
      rfl

theorem set_all_loop_halt {α τ : Type} (fails : Device α τ → Bool) (st : Int)
    (l1 l2 : List (Device α τ)) (d : Device α τ)
    (h1 : ∀ x ∈ l1, fails x = false) (hd : fails d = true) :
    set_all_loop fails st (l1 ++ d :: l2) =
      (l1.map (fun k => ⟨k.udi, st⟩) ++ [⟨d.udi, st⟩], true) := by
  induction l1 with
  | nil =>
      rw [List.nil_append, set_all_loop, if_pos hd]
      rfl
  | cons ks rest ih =>
      rw [List.cons_append, set_all_loop,
        if_neg (by rw [h1 ks (List.mem_cons_self _ _)]; decide),
        ih (fun x hx => h1 x (List.mem_cons_of_mem _ hx))]
      rfl

/-- C6, counterexample: with two registered devices where the set-state
call on the first raises a bus error, `enable_all` issues only one call
— the exception escapes the loop and the second device is never
processed, contradicting "exactly N calls regardless of failures". -/
theorem c6_counterexample :
    (enable_all (fun d => d.udi == 0)
      ([⟨0, "a", "wlan"⟩, ⟨1, "b", "gps"⟩] :
        List (Device Nat String))).1.length = 1 ∧
    ([⟨0, "a", "wlan"⟩, ⟨1, "b", "gps"⟩] :
        List (Device Nat String)).length = 2 ∧
    (enable_all (fun d => d.udi == 0)
      ([⟨0, "a", "wlan"⟩, ⟨1, "b", "gps"⟩] :
        List (Device Nat String))).2 = true := by
  exact ⟨rfl, rfl, rfl⟩

/-- C6, amended: `enable_all` / `disable_all` issue `set_state(1)` /
`set_state(0)` to the registered devices in registry order; when no call
raises, exactly one call per device (N in total) is issued. The loop has
no exception handling, so a raising call — the only failure mode a
`set_state(1)` has — halts processing: the devices after the first
failing one receive no call. -/
theorem c6_theorem {α τ : Type} (fails : Device α τ → Bool)
    (switches l1 l2 : List (Device α τ)) (d : Device α τ) :
    ((∀ x ∈ switches, fails x = false) →
        enable_all fails switches =
          (switches.map (fun k => ⟨k.udi, 1⟩), false) ∧
        disable_all fails switches =
          (switches.map (fun k => ⟨k.udi, 0⟩), false) ∧
        (enable_all fails switches).1.length = switches.length) ∧
    (switches = l1 ++ d :: l2 → (∀ x ∈ l1, fails x = false) →
        fails d = true →
        enable_all fails switches =
          (l1.map (fun k => ⟨k.udi, 1⟩) ++ [⟨d.udi, 1⟩], true)) := by
  constructor
  · intro h
    refine ⟨set_all_loop_ok fails 1 switches h,
      set_all_loop_ok fails 0 switches h, ?_⟩
    rw [enable_all, set_all_loop_ok fails 1 switches h]
    simp
  · intro hsw h1 hd
    rw [enable_all, hsw]
    exact set_all_loop_halt fails 1 l1 l2 d h1 hd

/-- C6, witness: a fail-free two-device registry gets exactly two calls
in order; a registry whose second device's call raises gets two calls
and the exception flag. -/
theorem c6_witness :
    enable_all (fun _ => false)
      ([⟨0, "a", "wlan"⟩, ⟨1, "b", "gps"⟩] : List (Device Nat String)) =
      ([⟨0, 1⟩, ⟨1, 1⟩], false) ∧
    enable_all (fun d => d.udi == 1)
      ([⟨0, "a", "wlan"⟩, ⟨1, "b", "gps"⟩] : List (Device Nat String)) =
      ([⟨0, 1⟩, ⟨1, 1⟩], true) := by
  constructor
  · exact ((c6_theorem (fun _ => false) _ [] [] ⟨0, "a", "wlan"⟩).1
      (fun x _ => rfl)).1
  · exact (c6_theorem (fun d => d.udi == 1) _ [⟨0, "a", "wlan"⟩] []
      ⟨1, "b", "gps"⟩).2 rfl (by decide) (by decide)

/-! ## Claim C8 -/

/-- C8, counterexample: the URfkill added handler performs no name
validation — an "added" notification carrying the empty name is
inserted into the registry all the same. -/
theorem c8_counterexample :
    (urfkill_added_cb true [] ⟨0, 1, 0, 0, 0, ""⟩).switches =
      [⟨0, "", "wlan"⟩] ∧
    (urfkill_added_cb true [] ⟨0, 1, 0, 0, 0, ""⟩).switches.length = 1 := by
  exact ⟨rfl, rfl⟩

/-- C8, amended: Variant A (HAL) reads `killswitch.name`, falls back to
`info.product`, and never inserts a device lacking both (discovery and
added handler alike); Variant B (URfkill) performs no name validation
and inserts the device with whatever name the notification carries. -/
theorem c8_theorem :
    (∀ (cbSet : Bool) (switches : List (Device String (Option String)))
        (path : String) (dev : HalDeviceInfo),
        dev.ksName = none → dev.product = none →
        hal_device_added_cb cbSet switches path dev =
          ⟨switches, [], false⟩) ∧
    (∀ (udi : String) (dev : HalDeviceInfo)
        (rest : List (String × HalDeviceInfo)),
        dev.ksName = none → dev.product = none →
        hal_discover ((udi, dev) :: rest) = hal_discover rest) ∧
    (∀ (udi : String) (dev : HalDeviceInfo)
        (rest : List (String × HalDeviceInfo)) (n : String),
        dev.ksName = none → dev.product = some n →
        hal_discover ((udi, dev) :: rest) =
          ⟨udi, n, dev.ksType⟩ :: hal_discover rest) ∧
    (∀ (cbSet : Bool) (switches : List (Device Nat String))
        (e : RfkillEvent),
        e.index ∉ switches.map Device.udi →
        (urfkill_added_cb cbSet switches e).switches =
          switches ++ [⟨e.index, e.name, get_name_for_type e.ty⟩]) := by
  refine ⟨?_, ?_, ?_, ?_⟩
  · intro cbSet switches path dev h1 h2
    rw [hal_device_added_cb, h1, h2]
    split
    · split
      · rfl
      · rfl
    · rfl
  · intro udi dev rest h1 h2
    rw [hal_discover, h1, h2]
  · intro udi dev rest n h1 h2
    rw [hal_discover, h1, h2]
  · intro cbSet switches e h
    rw [urfkill_added_cb_fresh h]

/-- C8, witness: a wholly unnamed HAL device is skipped by both the
added handler and discovery, the product-name fallback is used when
only `info.product` exists, and an URfkill added notification with an
empty name is inserted regardless. -/
theorem c8_witness :
    hal_device_added_cb true [] "p" ⟨true, none, none, none⟩ =
      ⟨[], [], false⟩ ∧
    hal_discover [("p", ⟨true, none, none, none⟩)] = [] ∧
    hal_discover [("q", ⟨true, none, some "Prod", some "wlan"⟩)] =
      [⟨"q", "Prod", some "wlan"⟩] ∧
    (urfkill_added_cb true [] ⟨2, 6, 0, 0, 0, ""⟩).switches =
      [⟨2, "", "gps"⟩] := by
  refine ⟨?_, ?_, ?_, ?_⟩
  · exact c8_theorem.1 true [] "p" ⟨true, none, none, none⟩ rfl rfl
  · exact c8_theorem.2.1 "p" ⟨true, none, none, none⟩ [] rfl rfl
  · exact c8_theorem.2.2.1 "q" ⟨true, none, some "Prod", some "wlan"⟩ []
      "Prod" rfl rfl
  · exact c8_theorem.2.2.2 true [] ⟨2, 6, 0, 0, 0, ""⟩ (by decide)

/-! ## Claim C10 -/

/-- C10: when no added-observer has been registered (`cbSet = false`)
and an "added" notification with a fresh, valid id arrives, both
backends' handlers first append the new device and only then call the
`None` observer slot, which raises `TypeError`: the handler fails, the
observer never runs, yet the registry has grown by one and keeps the
entry — insertion and observer delivery are not atomic. -/
theorem c10_theorem :
    (∀ (switches : List (Device Nat String)) (e : RfkillEvent),
        e.index ∉ switches.map Device.udi →
        urfkill_added_cb false switches e =
          ⟨switches ++ [⟨e.index, e.name, get_name_for_type e.ty⟩],
           [], true⟩ ∧
        (urfkill_added_cb false switches e).switches.length =
          switches.length + 1) ∧
    (∀ (switches : List (Device String (Option String))) (path : String)
        (dev : HalDeviceInfo) (n : String),
        dev.hasKillswitchCap = true → dev.ksName = some n →
        path ∉ switches.map Device.udi →
        hal_device_added_cb false switches path dev =
          ⟨switches ++ [⟨path, n, dev.ksType⟩], [], true⟩ ∧
        (hal_device_added_cb false switches path dev).switches.length =
          switches.length + 1) := by
  constructor
  · intro switches e h
    rw [urfkill_added_cb_fresh h]
    exact ⟨rfl, by simp⟩
  · intro switches path dev n hcap hks h
    have hany : switches.any (fun item => path == item.udi) = false := by
      rw [← Bool.not_eq_true, List.any_eq_true]
      rintro ⟨x, hx, he⟩
      exact h (List.mem_map.mpr ⟨x, hx, (beq_iff_eq.mp he).symm⟩)
    have hres : hal_device_added_cb false switches path dev =
        ⟨switches ++ [⟨path, n, dev.ksType⟩], [], true⟩ := by
      rw [hal_device_added_cb, if_pos hcap, if_neg (by simp [hany]), hks]
      rfl
    exact ⟨hres, by rw [hres]; simp⟩

/-- C10, witness: concrete fresh additions with the observer slot unset
for both backends. -/
theorem c10_witness :
    urfkill_added_cb false [] ⟨4, 2, 0, 0, 0, "bt"⟩ =
      ⟨[⟨4, "bt", "bluetooth"⟩], [], true⟩ ∧
    hal_device_added_cb false [] "/dev/ks0"
        ⟨true, some "KS", none, some "wlan"⟩ =
      ⟨[⟨"/dev/ks0", "KS", some "wlan"⟩], [], true⟩ := by
  constructor
  · exact (c10_theorem.1 [] ⟨4, 2, 0, 0, 0, "bt"⟩ (by decide)).1
  · exact (c10_theorem.2 [] "/dev/ks0" ⟨true, some "KS", none, some "wlan"⟩
      "KS" rfl rfl (by decide)).1

end Killswitch
